import Mathlib

/-!
Verification development for the LimbsSafetySw_ESP32 repository.

Shallow embedding of the LimbsSftyLnFSwtch class from
src/LimbsSafetySw_ESP32.h and src/LimbsSafetySw_ESP32.cpp.

The class drives a finite deterministic automaton (FDA) over snapshots of
three underlying switches (left hand, right hand, foot), owns two timed
boolean outputs (latch release, production cycle), a counter-backed change
notifier and a bit-packed 32-bit status word.  The underlying
DbncdMPBttn-subclass switches (ButtonToSwitch_ESP32 library) are external
collaborators; only the operations the class invokes on them
(enable / disable / setIsOnDisabled / setStrtDelay / setVoidTime /
setBeginDisabled / begin) are modelled, as state updates on the switch
fields the class observes.  FreeRTOS task notifications and function
callbacks are output effects with no bearing on the class state and are
not part of the state.

Machine integers: counters and times are unsigned 32-bit on the target
(ESP32: unsigned long int and uint32_t are 32 bits), modelled as Nat with
explicit reduction mod 2^32 where the C++ arithmetic can overflow or wrap.
-/

namespace LimbsSafety

/-- The modulus 2^32 of the 32-bit unsigned arithmetic of the target. -/
def u32Mod : Nat := 4294967296

/-- Unsigned 32-bit subtraction a - b (as in the C++ expression
`_curTimeMs - _prdCyclTmrStrt`), for operands already reduced mod 2^32. -/
def usub32 (a b : Nat) : Nat := (a + (u32Mod - b)) % u32Mod

/-- Snapshot of one underlying switch status, the fields of MpbOtpts_t the
class reads (isOn, isEnabled, isVoided). -/
structure MpbOtpts where
  isOn : Bool := false
  isEnabled : Bool := false
  isVoided : Bool := false
deriving DecidableEq

/-- The FDA states, enum fdaLsSwtchStts in LimbsSafetySw_ESP32.h. -/
inductive FdaLsSwtchStts where
  | stOffNotBHP
  | stOffBHPNotFP
  | stStrtRlsStrtCycl
  | stEndRls
  | stEndCycl
  | stEmrgncyExcpHndl
deriving DecidableEq

open FdaLsSwtchStts

/-- The mutable state of a LimbsSftyLnFSwtch object, restricted to the
fields the embedded operations read or write.  The fields lftEnabled,
rghtEnabled, ftEnabled, lftIsOnDisabled, rghtIsOnDisabled stand for the
isEnabled / isOnDisabled flags of the owned underlying switch objects as
driven by the class through enable() / disable() / setIsOnDisabled(). -/
structure LsState where
  lftHndSwtchStts : MpbOtpts
  rghtHndSwtchStts : MpbOtpts
  ftSwtchStts : MpbOtpts
  curTimeMs : Nat
  ltchRlsIsOn : Bool
  ltchRlsPndng : Bool
  ltchRlsTtlTm : Nat
  prdCyclIsOn : Bool
  prdCyclTmrStrt : Nat
  prdCyclTtlTm : Nat
  lsSwtchFdaState : FdaLsSwtchStts
  lsSwtchOtptsChng : Bool
  lsSwtchOtptsChngCnt : Nat
  sttChng : Bool
  lftHndBhvrCfgIsEnbld : Bool
  rghtHndBhvrCfgIsEnbld : Bool
  lftEnabled : Bool
  rghtEnabled : Bool
  ftEnabled : Bool
  lftIsOnDisabled : Bool
  rghtIsOnDisabled : Bool
deriving DecidableEq

/-- LimbsSftyLnFSwtch::setLsSwtchOtptsChng: with true the uint32_t counter
is incremented, with false it is decremented only when nonzero, and the
boolean flag is recomputed as counter-nonzero. -/
def setLsSwtchOtptsChng (s : LsState) (newLsSwtchOtptsChng : Bool) : LsState :=
  let cnt : Nat :=
    if newLsSwtchOtptsChng then (s.lsSwtchOtptsChngCnt + 1) % u32Mod
    else if s.lsSwtchOtptsChngCnt ≠ 0 then s.lsSwtchOtptsChngCnt - 1
    else s.lsSwtchOtptsChngCnt
  { s with lsSwtchOtptsChngCnt := cnt, lsSwtchOtptsChng := cnt != 0 }

/-- LimbsSftyLnFSwtch::getLsSwtchOtptsChng. -/
def getLsSwtchOtptsChng (s : LsState) : Bool := s.lsSwtchOtptsChng

/-- LimbsSftyLnFSwtch::_turnOnLtchRls (flag effects; callback and task
notification are external outputs). -/
def turnOnLtchRls (s : LsState) : LsState :=
  if s.ltchRlsIsOn then s
  else setLsSwtchOtptsChng { s with ltchRlsIsOn := true } true

/-- LimbsSftyLnFSwtch::_turnOffLtchRls (flag effects). -/
def turnOffLtchRls (s : LsState) : LsState :=
  if s.ltchRlsIsOn then setLsSwtchOtptsChng { s with ltchRlsIsOn := false } true
  else s

/-- LimbsSftyLnFSwtch::_turnOnPrdCycl (flag effects). -/
def turnOnPrdCycl (s : LsState) : LsState :=
  if s.prdCyclIsOn then s
  else setLsSwtchOtptsChng { s with prdCyclIsOn := true } true

/-- LimbsSftyLnFSwtch::_turnOffPrdCycl (flag effects). -/
def turnOffPrdCycl (s : LsState) : LsState :=
  if s.prdCyclIsOn then setLsSwtchOtptsChng { s with prdCyclIsOn := false } true
  else s

/-- LimbsSftyLnFSwtch::clrStatus: clears both outputs and the cycle timer
start, disables the foot switch, forces both hand switches isOnDisabled
and re-applies their configured enabled state. -/
def clrStatus (s : LsState) : LsState :=
  let s1 := { s with ltchRlsIsOn := false, prdCyclIsOn := false,
                     prdCyclTmrStrt := 0, ftEnabled := false }
  let s2 := { s1 with lftIsOnDisabled := true }
  let s3 := if s2.lftHndBhvrCfgIsEnbld then { s2 with lftEnabled := true }
            else { s2 with lftEnabled := false }
  let s4 := { s3 with rghtIsOnDisabled := true }
  if s4.rghtHndBhvrCfgIsEnbld then { s4 with rghtEnabled := true }
  else { s4 with rghtEnabled := false }

/-- LimbsSftyLnFSwtch::_clrSttChng. -/
def clrSttChng (s : LsState) : LsState := { s with sttChng := false }

/-- LimbsSftyLnFSwtch::_setSttChng. -/
def setSttChng (s : LsState) : LsState := { s with sttChng := true }

/-- The stOffNotBHP case of LimbsSftyLnFSwtch::_updFdaState. -/
def fdaOffNotBHP (s : LsState) : LsState :=
  let s1 := if s.sttChng then clrSttChng (clrStatus s) else s
  let s2 := if s1.lftHndSwtchStts.isOn && s1.rghtHndSwtchStts.isOn then
              setSttChng { s1 with lsSwtchFdaState := stOffBHPNotFP }
            else s1
  if s2.sttChng then { s2 with ftEnabled := true } else s2

/-- The stOffBHPNotFP case of LimbsSftyLnFSwtch::_updFdaState.  The
_ackBthHndsOnMssd call is a pure notification with no state effect. -/
def fdaOffBHPNotFP (s : LsState) : LsState :=
  let s1 := if s.sttChng then clrSttChng s else s
  if !(s1.lftHndSwtchStts.isOn && s1.rghtHndSwtchStts.isOn) then
    setSttChng { s1 with ftEnabled := false, lsSwtchFdaState := stOffNotBHP }
  else if s1.ltchRlsPndng then
    let s2 := { s1 with ltchRlsPndng := false, lftIsOnDisabled := false }
    let s3 := if s2.lftHndBhvrCfgIsEnbld then { s2 with lftEnabled := false } else s2
    let s4 := { s3 with rghtIsOnDisabled := false }
    let s5 := if s4.rghtHndBhvrCfgIsEnbld then { s4 with rghtEnabled := false } else s4
    setSttChng { s5 with ftEnabled := false, lsSwtchFdaState := stStrtRlsStrtCycl }
  else s1

/-- The stStrtRlsStrtCycl case of LimbsSftyLnFSwtch::_updFdaState. -/
def fdaStrtRlsStrtCycl (s : LsState) : LsState :=
  let s1 := if s.sttChng then clrSttChng { s with prdCyclTmrStrt := s.curTimeMs }
            else s
  let s2 := turnOnLtchRls s1
  let s3 := turnOnPrdCycl s2
  setSttChng { s3 with lsSwtchFdaState := stEndRls }

/-- The stEndRls case of LimbsSftyLnFSwtch::_updFdaState. -/
def fdaEndRls (s : LsState) : LsState :=
  let s1 := if s.sttChng then clrSttChng s else s
  if s1.ltchRlsTtlTm ≤ usub32 s1.curTimeMs s1.prdCyclTmrStrt then
    setSttChng { (turnOffLtchRls s1) with lsSwtchFdaState := stEndCycl }
  else s1

/-- The stEndCycl case of LimbsSftyLnFSwtch::_updFdaState. -/
def fdaEndCycl (s : LsState) : LsState :=
  let s1 := if s.sttChng then clrSttChng s else s
  if s1.prdCyclTtlTm ≤ usub32 s1.curTimeMs s1.prdCyclTmrStrt then
    let s2 := turnOffPrdCycl s1
    let s3 := { s2 with lftIsOnDisabled := true }
    let s4 := if s3.lftHndBhvrCfgIsEnbld then { s3 with lftEnabled := true } else s3
    let s5 := { s4 with rghtIsOnDisabled := true }
    let s6 := if s5.rghtHndBhvrCfgIsEnbld then { s5 with rghtEnabled := true } else s5
    setSttChng { s6 with lsSwtchFdaState := stOffNotBHP }
  else s1

/-- The stEmrgncyExcpHndl case of LimbsSftyLnFSwtch::_updFdaState: only the
entry-flag bookkeeping, no exit. -/
def fdaEmrgncyExcpHndl (s : LsState) : LsState :=
  if s.sttChng then clrSttChng s else s

/-- LimbsSftyLnFSwtch::_updFdaState: one evaluation pass of the FDA,
dispatching on the current state. -/
def updFdaState (s : LsState) : LsState :=
  match s.lsSwtchFdaState with
  | stOffNotBHP => fdaOffNotBHP s
  | stOffBHPNotFP => fdaOffBHPNotFP s
  | stStrtRlsStrtCycl => fdaStrtRlsStrtCycl s
  | stEndRls => fdaEndRls s
  | stEndCycl => fdaEndCycl s
  | stEmrgncyExcpHndl => fdaEmrgncyExcpHndl s

/-- The per-tick environment input: the three switch status snapshots read
by _getUndrlSwtchStts, the tick time read by _updCurTimeMs, and whether
the underlying foot switch turned on since the last tick (which runs the
registered callback _setLtchRlsPndng, setting the pending flag). -/
structure TickInput where
  lft : MpbOtpts := {}
  rght : MpbOtpts := {}
  ft : MpbOtpts := {}
  ftFired : Bool := false
  timeMs : Nat := 0
deriving DecidableEq

/-- Installs the inputs of one tick into the state: the snapshot copy of
_getUndrlSwtchStts, the time base update of _updCurTimeMs, and the effect
of the foot switch turn-on callback _setLtchRlsPndng (the pending flag is
only ever set by that callback and stays set until consumed). -/
def applyInputs (s : LsState) (i : TickInput) : LsState :=
  { s with lftHndSwtchStts := i.lft, rghtHndSwtchStts := i.rght,
           ftSwtchStts := i.ft,
           ltchRlsPndng := s.ltchRlsPndng || i.ftFired,
           curTimeMs := i.timeMs % u32Mod }

/-- One invocation of the poll timer callback lsSwtchPollCb restricted to
its state effects: refresh the snapshots and time base, then run one FDA
evaluation pass. -/
def pollTick (s : LsState) (i : TickInput) : LsState :=
  updFdaState (applyInputs s i)

/-- n poll ticks from state s under the input stream ins. -/
def run (s : LsState) (ins : Nat → TickInput) : Nat → LsState
  | 0 => s
  | n + 1 => pollTick (run s ins n) (ins n)

/-- The state of a freshly constructed LimbsSftyLnFSwtch (parameterized
constructor): outputs off, pending flag clear (static initialization),
FDA in stOffNotBHP with sttChng true, change counter zero, total times
from the working configuration.  The underlying switches: the left hand
switch begins disabled exactly when its behavior configuration asks for
it, the right hand switch is unconditionally set to begin disabled
(constructor line calling setBeginDisabled(true) outside the guard), and
the foot switch is never set to begin disabled, so it begins enabled. -/
def initState (lftCfgEnbld rghtCfgEnbld : Bool) (ltchRlsActvTm prdCyclActvTm : Nat) :
    LsState :=
  { lftHndSwtchStts := {}, rghtHndSwtchStts := {}, ftSwtchStts := {},
    curTimeMs := 0,
    ltchRlsIsOn := false, ltchRlsPndng := false,
    ltchRlsTtlTm := ltchRlsActvTm % u32Mod,
    prdCyclIsOn := false, prdCyclTmrStrt := 0,
    prdCyclTtlTm := prdCyclActvTm % u32Mod,
    lsSwtchFdaState := stOffNotBHP,
    lsSwtchOtptsChng := false, lsSwtchOtptsChngCnt := 0,
    sttChng := true,
    lftHndBhvrCfgIsEnbld := lftCfgEnbld,
    rghtHndBhvrCfgIsEnbld := rghtCfgEnbld,
    lftEnabled := lftCfgEnbld,
    rghtEnabled := false,
    ftEnabled := true,
    lftIsOnDisabled := true, rghtIsOnDisabled := true }

/-- LimbsSftyLnFSwtch::resetFda: clrStatus, re-arm the entry flag, force
the FDA state back to stOffNotBHP. -/
def resetFda (s : LsState) : LsState :=
  let s1 := clrStatus s
  let s2 := setSttChng s1
  { s2 with lsSwtchFdaState := stOffNotBHP }

/-- LimbsSftyLnFSwtch::setLtchRlsTtlTm: returns the success flag and the
updated state. -/
def setLtchRlsTtlTm (s : LsState) (newVal : Nat) : Bool × LsState :=
  if s.ltchRlsTtlTm ≠ newVal then
    if 0 < newVal ∧ newVal ≤ s.prdCyclTtlTm then
      (true, { s with ltchRlsTtlTm := newVal })
    else (false, s)
  else (true, s)

/-- LimbsSftyLnFSwtch::setPrdCyclTtlTm: returns the success flag and the
updated state. -/
def setPrdCyclTtlTm (s : LsState) (newVal : Nat) : Bool × LsState :=
  if s.prdCyclTtlTm ≠ newVal then
    if 0 < newVal ∧ s.ltchRlsTtlTm ≤ newVal then
      (true, { s with prdCyclTtlTm := newVal })
    else (false, s)
  else (true, s)

/-- The minimum poll delay constant _minPollDelay (20 ms). -/
def minPollDelay : Nat := 20

/-- LimbsSftyLnFSwtch::setUndrlSwtchsPollDelay: accepts values of at least
_minPollDelay, returns the success flag and the stored delay. -/
def setUndrlSwtchsPollDelay (undrlSwtchsPollDelay newVal : Nat) : Bool × Nat :=
  if minPollDelay ≤ newVal then (true, newVal)
  else (false, undrlSwtchsPollDelay)

/-! ## Status codec -/

/-- Bit position of the left hand isEnabled flag in the packed word. -/
def lftHndSwtchIsEnbldBP : Nat := 0
/-- Bit position of the left hand isOn flag in the packed word. -/
def lftHndSwtchIsOnBP : Nat := 1
/-- Bit position of the left hand isVoided flag in the packed word. -/
def lftHndSwtchIsVddBP : Nat := 2
/-- Bit position of the right hand isEnabled flag in the packed word. -/
def rghtHndSwtchIsEnbldBP : Nat := 3
/-- Bit position of the right hand isOn flag in the packed word. -/
def rghtHndSwtchIsOnBP : Nat := 4
/-- Bit position of the right hand isVoided flag in the packed word. -/
def rghtHndSwtchIsVddBP : Nat := 5
/-- Bit position of the foot switch isEnabled flag in the packed word. -/
def ftSwtchIsEnbldBP : Nat := 6
/-- Bit position of the foot switch isOn flag in the packed word. -/
def ftSwtchIsOnBP : Nat := 7
/-- Bit position of the latch release output flag in the packed word. -/
def LsSwtchLtchRlsIsOnBP : Nat := 8
/-- Bit position of the production cycle output flag in the packed word. -/
def LsSwtchPrdCyclIsOnBP : Nat := 9

/-- The C++ expression `v |= ((uint32_t)1) << bp`. -/
def bitSet32 (v bp : Nat) : Nat := v ||| (1 <<< bp)

/-- The C++ expression `v &= ~(((uint32_t)1) << bp)` on a 32-bit word. -/
def bitClr32 (v bp : Nat) : Nat := v &&& ((u32Mod - 1) ^^^ (1 <<< bp))

/-- LimbsSftyLnFSwtch::_lsSwtchOtptsSttsPkgd: encodes the ten relevant
attribute flags into the packed 32-bit status word, starting from
prevVal (default 0). -/
def lsSwtchOtptsSttsPkgd (s : LsState) (prevVal : Nat := 0) : Nat :=
  let v := if s.lftHndSwtchStts.isEnabled then bitSet32 prevVal lftHndSwtchIsEnbldBP
           else bitClr32 prevVal lftHndSwtchIsEnbldBP
  let v := if s.lftHndSwtchStts.isOn then bitSet32 v lftHndSwtchIsOnBP
           else bitClr32 v lftHndSwtchIsOnBP
  let v := if s.lftHndSwtchStts.isVoided then bitSet32 v lftHndSwtchIsVddBP
           else bitClr32 v lftHndSwtchIsVddBP
  let v := if s.rghtHndSwtchStts.isEnabled then bitSet32 v rghtHndSwtchIsEnbldBP
           else bitClr32 v rghtHndSwtchIsEnbldBP
  let v := if s.rghtHndSwtchStts.isOn then bitSet32 v rghtHndSwtchIsOnBP
           else bitClr32 v rghtHndSwtchIsOnBP
  let v := if s.rghtHndSwtchStts.isVoided then bitSet32 v rghtHndSwtchIsVddBP
           else bitClr32 v rghtHndSwtchIsVddBP
  let v := if s.ftSwtchStts.isEnabled then bitSet32 v ftSwtchIsEnbldBP
           else bitClr32 v ftSwtchIsEnbldBP
  let v := if s.ftSwtchStts.isOn then bitSet32 v ftSwtchIsOnBP
           else bitClr32 v ftSwtchIsOnBP
  let v := if s.ltchRlsIsOn then bitSet32 v LsSwtchLtchRlsIsOnBP
           else bitClr32 v LsSwtchLtchRlsIsOnBP
  if s.prdCyclIsOn then bitSet32 v LsSwtchPrdCyclIsOnBP
  else bitClr32 v LsSwtchPrdCyclIsOnBP

/-- The ten relevant attribute flags, struct lsSwtchOtpts_t. -/
structure lsSwtchOtpts where
  lftHndIsEnbld : Bool
  lftHndIsOn : Bool
  lftHndIsVdd : Bool
  rghtHndIsEnbld : Bool
  rghtHndIsOn : Bool
  rghtHndIsVdd : Bool
  ftSwIsEnbld : Bool
  ftSwIsOn : Bool
  ltchRlsIsOn : Bool
  prdCyclIsOn : Bool
deriving DecidableEq

/-- The free function lssOtptsSttsUnpkg: decodes a packed 32-bit status
word into the flag structure. -/
def lssOtptsSttsUnpkg (pkgOtpts : Nat) : lsSwtchOtpts :=
  { lftHndIsEnbld := (pkgOtpts &&& (1 <<< lftHndSwtchIsEnbldBP)) != 0,
    lftHndIsOn := (pkgOtpts &&& (1 <<< lftHndSwtchIsOnBP)) != 0,
    lftHndIsVdd := (pkgOtpts &&& (1 <<< lftHndSwtchIsVddBP)) != 0,
    rghtHndIsEnbld := (pkgOtpts &&& (1 <<< rghtHndSwtchIsEnbldBP)) != 0,
    rghtHndIsOn := (pkgOtpts &&& (1 <<< rghtHndSwtchIsOnBP)) != 0,
    rghtHndIsVdd := (pkgOtpts &&& (1 <<< rghtHndSwtchIsVddBP)) != 0,
    ftSwIsEnbld := (pkgOtpts &&& (1 <<< ftSwtchIsEnbldBP)) != 0,
    ftSwIsOn := (pkgOtpts &&& (1 <<< ftSwtchIsOnBP)) != 0,
    ltchRlsIsOn := (pkgOtpts &&& (1 <<< LsSwtchLtchRlsIsOnBP)) != 0,
    prdCyclIsOn := (pkgOtpts &&& (1 <<< LsSwtchPrdCyclIsOnBP)) != 0 }

/-- The ten flags of an object state that feed the encoder, in the
correspondence documented for _lsSwtchOtptsSttsPkgd. -/
def stateFlags (s : LsState) : lsSwtchOtpts :=
  { lftHndIsEnbld := s.lftHndSwtchStts.isEnabled,
    lftHndIsOn := s.lftHndSwtchStts.isOn,
    lftHndIsVdd := s.lftHndSwtchStts.isVoided,
    rghtHndIsEnbld := s.rghtHndSwtchStts.isEnabled,
    rghtHndIsOn := s.rghtHndSwtchStts.isOn,
    rghtHndIsVdd := s.rghtHndSwtchStts.isVoided,
    ftSwIsEnbld := s.ftSwtchStts.isEnabled,
    ftSwIsOn := s.ftSwtchStts.isOn,
    ltchRlsIsOn := s.ltchRlsIsOn,
    prdCyclIsOn := s.prdCyclIsOn }

/-! ## begin and the underlying-switch setup of the constructor -/

/-- The externally observable effects of LimbsSftyLnFSwtch::begin: its
return value, which underlying switches had begin invoked on them, and
whether the poll timer was created and started. -/
structure BeginOutcome where
  result : Bool
  lftBegun : Bool
  rghtBegun : Bool
  ftBegun : Bool
  tmrCreated : Bool
  tmrStarted : Bool
deriving DecidableEq

/-- The un-started outcome: nothing invoked, nothing created. -/
def beginNothing : BeginOutcome :=
  { result := false, lftBegun := false, rghtBegun := false, ftBegun := false,
    tmrCreated := false, tmrStarted := false }

/-- LimbsSftyLnFSwtch::begin.  The success of the three underlying begin
calls and of the FreeRTOS timer creation and start are environment
outcomes, passed as oracle booleans; tmrAlreadyCreated models a non-NULL
_lsSwtchPollTmrHndl.  Mirrors the nesting of the source: each underlying begin
is attempted only if the previous succeeded, the timer is created only if
no handle exists, started only if created, and the C++ result variable is
never reset after the foot switch begin succeeds. -/
def begin (undrlSwtchsPollDelay pollDelayMs : Nat)
    (tmrAlreadyCreated lftBgnOk rghtBgnOk ftBgnOk tmrCrtOk tmrStrtOk : Bool) :
    BeginOutcome :=
  if undrlSwtchsPollDelay ≤ pollDelayMs then
    if lftBgnOk then
      if rghtBgnOk then
        if ftBgnOk then
          if !tmrAlreadyCreated then
            if tmrCrtOk then
              { result := true, lftBegun := true, rghtBegun := true,
                ftBegun := true, tmrCreated := true, tmrStarted := tmrStrtOk }
            else
              { result := true, lftBegun := true, rghtBegun := true,
                ftBegun := true, tmrCreated := false, tmrStarted := false }
          else
            { result := true, lftBegun := true, rghtBegun := true,
              ftBegun := true, tmrCreated := false, tmrStarted := false }
        else
          { result := false, lftBegun := true, rghtBegun := true,
            ftBegun := true, tmrCreated := false, tmrStarted := false }
      else
        { result := false, lftBegun := true, rghtBegun := true,
          ftBegun := false, tmrCreated := false, tmrStarted := false }
    else
      { result := false, lftBegun := true, rghtBegun := false,
        ftBegun := false, tmrCreated := false, tmrStarted := false }
  else beginNothing

/-- Which underlying switches the parameterized constructor sets to begin
disabled (setBeginDisabled(true) calls). -/
structure CtorUndrlSetup where
  lftBeginDisabled : Bool
  rghtBeginDisabled : Bool
  ftBeginDisabled : Bool
deriving DecidableEq

/-- The setBeginDisabled calls of the parameterized constructor, in source
order: left hand guarded on its configuration, right hand guarded on its
configuration, then one more unconditional setBeginDisabled(true) on the
right hand switch (under the comment announcing the foot switch), and
none on the foot switch. -/
def ctorUndrlSwtchsSetup (lftHndBhvrCfgIsEnbld rghtHndBhvrCfgIsEnbld : Bool) :
    CtorUndrlSetup :=
  let c0 : CtorUndrlSetup :=
    { lftBeginDisabled := false, rghtBeginDisabled := false, ftBeginDisabled := false }
  let c1 := if !lftHndBhvrCfgIsEnbld then { c0 with lftBeginDisabled := true } else c0
  let c2 := if !rghtHndBhvrCfgIsEnbld then { c1 with rghtBeginDisabled := true } else c1
  { c2 with rghtBeginDisabled := true }

/-! ## Hand-switch behavior configuration -/

/-- struct swtchBhvrCfg_t. -/
structure SwtchBhvrCfg where
  swtchStrtDlyTm : Nat := 0
  swtchIsEnbld : Bool := true
  swtchVdTm : Nat := 10000
deriving DecidableEq

/-- The attributes of an underlying TmVdblMPBttn hand switch that
_cnfgHndSwtch reads and writes (getStrtDelay / setStrtDelay,
getIsEnabled / enable / disable, getVoidTime / setVoidTime). -/
structure HndSwtch where
  strtDelay : Nat
  isEnabled : Bool
  voidTime : Nat
deriving DecidableEq

/-- LimbsSftyLnFSwtch::_cnfgHndSwtch on one hand switch: applies the start
delay and enabled-state changes when the requested values differ, then
attempts the void-time change when it differs; the underlying
setVoidTime acceptance is the oracle setVoidTimeOk.  The returned flag is
the C++ result variable, assigned only in the void-time branch. -/
def cnfgHndSwtch (u : HndSwtch) (cfg : SwtchBhvrCfg) (newCfg : SwtchBhvrCfg)
    (setVoidTimeOk : Nat → Bool) : Bool × HndSwtch × SwtchBhvrCfg :=
  let p1 : HndSwtch × SwtchBhvrCfg :=
    if u.strtDelay ≠ newCfg.swtchStrtDlyTm then
      ({ u with strtDelay := newCfg.swtchStrtDlyTm },
       { cfg with swtchStrtDlyTm := newCfg.swtchStrtDlyTm })
    else (u, cfg)
  let p2 : HndSwtch × SwtchBhvrCfg :=
    if p1.1.isEnabled ≠ newCfg.swtchIsEnbld then
      ({ p1.1 with isEnabled := newCfg.swtchIsEnbld },
       { p1.2 with swtchIsEnbld := newCfg.swtchIsEnbld })
    else p1
  if p2.1.voidTime ≠ newCfg.swtchVdTm then
    if setVoidTimeOk newCfg.swtchVdTm then
      (true, { p2.1 with voidTime := newCfg.swtchVdTm },
              { p2.2 with swtchVdTm := newCfg.swtchVdTm })
    else (false, p2.1, p2.2)
  else (false, p2.1, p2.2)

/-- The two hand switches and their mirrored behavior configurations. -/
structure HndsState where
  undrlLftHnd : HndSwtch
  lftHndBhvrCfg : SwtchBhvrCfg
  undrlRghtHnd : HndSwtch
  rghtHndBhvrCfg : SwtchBhvrCfg
deriving DecidableEq

/-- LimbsSftyLnFSwtch::cnfgLftHndSwtch, delegating to _cnfgHndSwtch with
isLeft = true. -/
def cnfgLftHndSwtch (st : HndsState) (newCfg : SwtchBhvrCfg)
    (setVoidTimeOk : Nat → Bool) : Bool × HndsState :=
  let r := cnfgHndSwtch st.undrlLftHnd st.lftHndBhvrCfg newCfg setVoidTimeOk
  (r.1, { st with undrlLftHnd := r.2.1, lftHndBhvrCfg := r.2.2 })

/-- LimbsSftyLnFSwtch::cnfgRghtHndSwtch, delegating to _cnfgHndSwtch with
isLeft = false. -/
def cnfgRghtHndSwtch (st : HndsState) (newCfg : SwtchBhvrCfg)
    (setVoidTimeOk : Nat → Bool) : Bool × HndsState :=
  let r := cnfgHndSwtch st.undrlRghtHnd st.rghtHndBhvrCfg newCfg setVoidTimeOk
  (r.1, { st with undrlRghtHnd := r.2.1, rghtHndBhvrCfg := r.2.2 })

/-! ## Trace predicates for the temporal claims -/

/-- Both hand snapshots of a tick input report isOn. -/
def bothHands (i : TickInput) : Bool := i.lft.isOn && i.rght.isOn

/-- Either of the two FDA outputs is on. -/
def outputsOn (s : LsState) : Bool := s.ltchRlsIsOn || s.prdCyclIsOn

/-- The pending foot-press flag as read by the FDA pass of tick t of the
run from s0 under ins: the stored flag joined with the foot turn-on
callback of that tick. -/
def pndngObs (s0 : LsState) (ins : Nat → TickInput) (t : Nat) : Bool :=
  (run s0 ins t).ltchRlsPndng || (ins t).ftFired

/-- The run from s0 under ins contains, before tick n, a tick t' on which
both hands reported isOn followed by a strictly later tick t on which
both hands still reported isOn and the pending foot-press flag was read
true by the FDA pass. -/
def GoodTrace (s0 : LsState) (ins : Nat → TickInput) (n : Nat) : Prop :=
  ∃ t t', t' < t ∧ t < n ∧ bothHands (ins t') = true ∧ bothHands (ins t) = true ∧
    pndngObs s0 ins t = true

/-- An LsState carrying the ten codec-relevant flags, all other fields
fixed to the construction defaults. -/
def flagsToState (a b c d e f g h i j : Bool) : LsState :=
  { initState true true 0 0 with
    lftHndSwtchStts := { isEnabled := a, isOn := b, isVoided := c },
    rghtHndSwtchStts := { isEnabled := d, isOn := e, isVoided := f },
    ftSwtchStts := { isEnabled := g, isOn := h, isVoided := false },
    ltchRlsIsOn := i, prdCyclIsOn := j }

/-- A snapshot of a pressed, enabled, non-voided switch. -/
def handsOnSnap : MpbOtpts := { isOn := true, isEnabled := true, isVoided := false }

/-- Concrete input stream: both hands on from tick 0 on, and the foot
switch turn-on callback fires during tick 1. -/
def demoIns : Nat → TickInput := fun n =>
  if n = 1 then
    { lft := handsOnSnap, rght := handsOnSnap, ft := {}, ftFired := true, timeMs := 40 }
  else
    { lft := handsOnSnap, rght := handsOnSnap, ft := {}, ftFired := false, timeMs := 20 * n }

/-- Concrete construction state: both hands configured enabled, latch
release 1500 ms, production cycle 6000 ms. -/
def demoInit : LsState := initState true true 1500 6000

/-- The foot-switch arming invariant: the underlying foot switch is
enabled exactly while the FDA sits in stOffBHPNotFP. -/
def FtEnblInv (s : LsState) : Prop :=
  s.ftEnabled = decide (s.lsSwtchFdaState = stOffBHPNotFP)

/-- Induction invariant for the ordering property: in stOffBHPNotFP some
earlier tick had both hands on; in stStrtRlsStrtCycl, and whenever an
output is on, the trace already contains the full hands-then-foot
evidence. -/
def C1Inv (s0 : LsState) (ins : Nat → TickInput) (n : Nat) : Prop :=
  ((run s0 ins n).lsSwtchFdaState = stOffBHPNotFP →
    ∃ t', t' < n ∧ bothHands (ins t') = true) ∧
  ((run s0 ins n).lsSwtchFdaState = stStrtRlsStrtCycl → GoodTrace s0 ins n) ∧
  (outputsOn (run s0 ins n) = true → GoodTrace s0 ins n)

/-! ## Theorems -/

/-- C4: assuming the stored pair satisfies the invariant
0 < latchReleaseTotalTime ≤ productionCycleTotalTime, setLtchRlsTtlTm
and setPrdCyclTtlTm accept exactly the new values that keep it: an
accepted call returns true and stores exactly the new value, a rejected
call returns false and leaves the stored attribute unchanged. -/
theorem claim_C4_ttlTm_setters (s : LsState) (v : Nat)
    (h1 : 0 < s.ltchRlsTtlTm) (h2 : s.ltchRlsTtlTm ≤ s.prdCyclTtlTm) :
    (setLtchRlsTtlTm s v =
      if 0 < v ∧ v ≤ s.prdCyclTtlTm then (true, { s with ltchRlsTtlTm := v })
      else (false, s)) ∧
    (setPrdCyclTtlTm s v =
      if 0 < v ∧ s.ltchRlsTtlTm ≤ v then (true, { s with prdCyclTtlTm := v })
      else (false, s)) := by
  constructor
  · by_cases hv : s.ltchRlsTtlTm = v
    · subst hv
      simp [setLtchRlsTtlTm, h1, h2]
    · simp [setLtchRlsTtlTm, hv]
  · by_cases hv : s.prdCyclTtlTm = v
    · subst hv
      simp [setPrdCyclTtlTm, h2, Nat.lt_of_lt_of_le h1 h2]
    · simp [setPrdCyclTtlTm, hv]

/-- C4 witness: at the concrete construction values 1500/6000, an
in-range update is stored and an out-of-range update is rejected
unchanged. -/
theorem claim_C4_ttlTm_setters_witness :
    (0 < demoInit.ltchRlsTtlTm ∧ demoInit.ltchRlsTtlTm ≤ demoInit.prdCyclTtlTm) ∧
    (setLtchRlsTtlTm demoInit 2000 =
      if 0 < 2000 ∧ 2000 ≤ demoInit.prdCyclTtlTm
      then (true, { demoInit with ltchRlsTtlTm := 2000 }) else (false, demoInit)) ∧
    (setPrdCyclTtlTm demoInit 2000 =
      if 0 < 2000 ∧ demoInit.ltchRlsTtlTm ≤ 2000
      then (true, { demoInit with prdCyclTtlTm := 2000 }) else (false, demoInit)) :=
  ⟨⟨by decide, by decide⟩,
    (claim_C4_ttlTm_setters demoInit 2000 (by decide) (by decide)).1,
    (claim_C4_ttlTm_setters demoInit 2000 (by decide) (by decide)).2⟩

/-- C5: resetFda, invoked from any state, forces the FDA state back to
stOffNotBHP with the entry flag re-armed (so the entry actions of that state
run on the next pass) and leaves both outputs false. -/
theorem claim_C5_resetFda (s : LsState) :
    (resetFda s).lsSwtchFdaState = FdaLsSwtchStts.stOffNotBHP ∧
    (resetFda s).sttChng = true ∧
    (resetFda s).ltchRlsIsOn = false ∧
    (resetFda s).prdCyclIsOn = false := by
  simp only [resetFda, setSttChng, clrStatus]
  split_ifs <;> simp

/-- C6: after every setLsSwtchOtptsChng call the flag equals
counter-positive; a true call increments the 32-bit counter, a false
call decrements it floored at zero; consequently two true calls
followed by one false call leave getLsSwtchOtptsChng true. -/
theorem claim_C6_otptsChng :
    (∀ (s : LsState) (b : Bool),
      ((setLsSwtchOtptsChng s b).lsSwtchOtptsChng = true ↔
        0 < (setLsSwtchOtptsChng s b).lsSwtchOtptsChngCnt) ∧
      (setLsSwtchOtptsChng s b).lsSwtchOtptsChngCnt =
        (if b then (s.lsSwtchOtptsChngCnt + 1) % u32Mod
         else s.lsSwtchOtptsChngCnt - 1)) ∧
    (∀ s : LsState, s.lsSwtchOtptsChngCnt + 2 < u32Mod →
      getLsSwtchOtptsChng
        (setLsSwtchOtptsChng (setLsSwtchOtptsChng (setLsSwtchOtptsChng s true) true)
          false) = true) := by
  constructor
  · intro s b
    constructor
    · unfold setLsSwtchOtptsChng
      simp [Nat.pos_iff_ne_zero]
    · unfold setLsSwtchOtptsChng
      cases b
      · simp only [if_neg Bool.false_ne_true, Bool.false_eq_true, if_false]
        split <;> omega
      · simp
  · intro s h
    have h1 : (s.lsSwtchOtptsChngCnt + 1) % u32Mod = s.lsSwtchOtptsChngCnt + 1 :=
      Nat.mod_eq_of_lt (by omega)
    have h2 : (s.lsSwtchOtptsChngCnt + 1 + 1) % u32Mod = s.lsSwtchOtptsChngCnt + 2 :=
      Nat.mod_eq_of_lt (by omega)
    simp [getLsSwtchOtptsChng, setLsSwtchOtptsChng, h1, h2]

/-- C6 witness: from the construction state (counter 0), two true calls
and one false call leave the changed flag true. -/
theorem claim_C6_otptsChng_witness :
    demoInit.lsSwtchOtptsChngCnt + 2 < u32Mod ∧
    getLsSwtchOtptsChng
      (setLsSwtchOtptsChng (setLsSwtchOtptsChng (setLsSwtchOtptsChng demoInit true) true)
        false) = true :=
  ⟨by decide, claim_C6_otptsChng.2 demoInit (by decide)⟩

/-- C8: a begin call whose poll period is below the configured underlying
switches poll delay returns false with nothing started, and
setUndrlSwtchsPollDelay enforces the 20 ms lower bound, rejecting
smaller values unchanged. -/
theorem claim_C8_begin_rejects :
    (∀ (undrlSwtchsPollDelay pollDelayMs : Nat)
        (tmrAlreadyCreated lftBgnOk rghtBgnOk ftBgnOk tmrCrtOk tmrStrtOk : Bool),
      pollDelayMs < undrlSwtchsPollDelay →
      begin undrlSwtchsPollDelay pollDelayMs tmrAlreadyCreated lftBgnOk rghtBgnOk
        ftBgnOk tmrCrtOk tmrStrtOk = beginNothing) ∧
    (∀ undrlSwtchsPollDelay newVal : Nat,
      (newVal < minPollDelay →
        setUndrlSwtchsPollDelay undrlSwtchsPollDelay newVal =
          (false, undrlSwtchsPollDelay)) ∧
      (minPollDelay ≤ newVal →
        setUndrlSwtchsPollDelay undrlSwtchsPollDelay newVal = (true, newVal))) := by
  constructor
  · intro d p _ _ _ _ _ _ h
    unfold begin
    rw [if_neg (by omega)]
  · intro d v
    constructor
    · intro h
      unfold setUndrlSwtchsPollDelay
      rw [if_neg (by omega)]
    · intro h
      unfold setUndrlSwtchsPollDelay
      rw [if_pos h]

/-- C8 witness: a 10 ms begin request against the default 20 ms delay is
fully rejected, and setUndrlSwtchsPollDelay rejects 5 ms. -/
theorem claim_C8_begin_rejects_witness :
    (10 < 20 ∧
      begin 20 10 false true true true true true = beginNothing) ∧
    (5 < minPollDelay ∧ setUndrlSwtchsPollDelay 20 5 = (false, 20)) :=
  ⟨⟨by decide, claim_C8_begin_rejects.1 20 10 false true true true true true (by decide)⟩,
   ⟨by decide, (claim_C8_begin_rejects.2 20 5).1 (by decide)⟩⟩

/-- C9: the parameterized constructor sets the right hand switch to begin
disabled for every configuration (the unconditional setBeginDisabled
call outside the guard), while the left hand switch begins disabled
exactly when its behavior configuration requested it disabled, and the
foot switch is never set to begin disabled. -/
theorem claim_C9_ctor_rghtBeginDisabled (lftCfgEnbld rghtCfgEnbld : Bool) :
    (ctorUndrlSwtchsSetup lftCfgEnbld rghtCfgEnbld).rghtBeginDisabled = true ∧
    (ctorUndrlSwtchsSetup lftCfgEnbld rghtCfgEnbld).lftBeginDisabled = !lftCfgEnbld ∧
    (ctorUndrlSwtchsSetup lftCfgEnbld rghtCfgEnbld).ftBeginDisabled = false := by
  cases lftCfgEnbld <;> cases rghtCfgEnbld <;> decide

/-- C10: each hand-switch configuration call returns true exactly when
the requested void time differs from the one currently held by its
underlying switch and the underlying setVoidTime call accepts it; in
particular a call that only changes start delay or enabled state
returns false. -/
theorem claim_C10_cnfgHndSwtch (st : HndsState) (newCfg : SwtchBhvrCfg)
    (setVoidTimeOk : Nat → Bool) :
    ((cnfgLftHndSwtch st newCfg setVoidTimeOk).1 = true ↔
      newCfg.swtchVdTm ≠ st.undrlLftHnd.voidTime ∧
        setVoidTimeOk newCfg.swtchVdTm = true) ∧
    ((cnfgRghtHndSwtch st newCfg setVoidTimeOk).1 = true ↔
      newCfg.swtchVdTm ≠ st.undrlRghtHnd.voidTime ∧
        setVoidTimeOk newCfg.swtchVdTm = true) := by
  constructor
  · simp only [cnfgLftHndSwtch, cnfgHndSwtch]
    split_ifs <;> simp_all <;> omega
  · simp only [cnfgRghtHndSwtch, cnfgHndSwtch]
    split_ifs <;> simp_all <;> omega

/-- C7: for every combination of the ten meaningful flags, decoding the
word encoded from zero recovers exactly those flags, and the encoder
places them at bit positions 0 through 9 in the documented low-to-high
order. -/
theorem claim_C7_codec_roundtrip : ∀ a b c d e f g h i j : Bool,
    lssOtptsSttsUnpkg (lsSwtchOtptsSttsPkgd (flagsToState a b c d e f g h i j) 0) =
      ⟨a, b, c, d, e, f, g, h, i, j⟩ ∧
    (Nat.testBit (lsSwtchOtptsSttsPkgd (flagsToState a b c d e f g h i j) 0) 0 = a ∧
     Nat.testBit (lsSwtchOtptsSttsPkgd (flagsToState a b c d e f g h i j) 0) 1 = b ∧
     Nat.testBit (lsSwtchOtptsSttsPkgd (flagsToState a b c d e f g h i j) 0) 2 = c ∧
     Nat.testBit (lsSwtchOtptsSttsPkgd (flagsToState a b c d e f g h i j) 0) 3 = d ∧
     Nat.testBit (lsSwtchOtptsSttsPkgd (flagsToState a b c d e f g h i j) 0) 4 = e ∧
     Nat.testBit (lsSwtchOtptsSttsPkgd (flagsToState a b c d e f g h i j) 0) 5 = f ∧
     Nat.testBit (lsSwtchOtptsSttsPkgd (flagsToState a b c d e f g h i j) 0) 6 = g ∧
     Nat.testBit (lsSwtchOtptsSttsPkgd (flagsToState a b c d e f g h i j) 0) 7 = h ∧
     Nat.testBit (lsSwtchOtptsSttsPkgd (flagsToState a b c d e f g h i j) 0) 8 = i ∧
     Nat.testBit (lsSwtchOtptsSttsPkgd (flagsToState a b c d e f g h i j) 0) 9 = j) := by
  decide

/-- C3 counterexample: on the concrete trace, tick 1 is the tick in which
the FDA accepts the foot press (it starts in stOffBHPNotFP with the
pending flag observed and ends in stStrtRlsStrtCycl), yet at the end of
that same tick both outputs are still false and the cycle-start
timestamp still 0: the turn-on, the timestamp and the fall-through to
stEndRls happen only in the next evaluation pass. -/
theorem claim_C3_counterexample :
    (run demoInit demoIns 1).lsSwtchFdaState = stOffBHPNotFP ∧
    ((run demoInit demoIns 1).ltchRlsPndng || (demoIns 1).ftFired) = true ∧
    bothHands (demoIns 1) = true ∧
    (run demoInit demoIns 2).lsSwtchFdaState = stStrtRlsStrtCycl ∧
    (run demoInit demoIns 2).ltchRlsIsOn = false ∧
    (run demoInit demoIns 2).prdCyclIsOn = false ∧
    (run demoInit demoIns 2).prdCyclTmrStrt = 0 := by
  decide

/-- C3 amended: in the single evaluation pass that processes
stStrtRlsStrtCycl — the tick after the one in which the foot press was
accepted — the FDA records the cycle-start timestamp, turns both
outputs on in that same pass, and unconditionally falls through into
stEndRls. -/
theorem claim_C3_strtRlsPass (s : LsState) (i : TickInput)
    (h1 : s.lsSwtchFdaState = stStrtRlsStrtCycl) (h2 : s.sttChng = true) :
    (pollTick s i).ltchRlsIsOn = true ∧
    (pollTick s i).prdCyclIsOn = true ∧
    (pollTick s i).lsSwtchFdaState = stEndRls ∧
    (pollTick s i).prdCyclTmrStrt = i.timeMs % u32Mod := by
  simp only [pollTick, applyInputs, updFdaState, h1]
  simp only [fdaStrtRlsStrtCycl, turnOnLtchRls, turnOnPrdCycl, setLsSwtchOtptsChng,
    setSttChng, clrSttChng, h2]
  split_ifs <;> simp_all

/-- C3 amended witness: on the concrete trace, tick 2 processes
stStrtRlsStrtCycl and produces both outputs, the timestamp and
stEndRls. -/
theorem claim_C3_strtRlsPass_witness :
    ((run demoInit demoIns 2).lsSwtchFdaState = stStrtRlsStrtCycl ∧
      (run demoInit demoIns 2).sttChng = true) ∧
    (pollTick (run demoInit demoIns 2) (demoIns 2)).ltchRlsIsOn = true ∧
    (pollTick (run demoInit demoIns 2) (demoIns 2)).prdCyclIsOn = true ∧
    (pollTick (run demoInit demoIns 2) (demoIns 2)).lsSwtchFdaState = stEndRls ∧
    (pollTick (run demoInit demoIns 2) (demoIns 2)).prdCyclTmrStrt =
      (demoIns 2).timeMs % u32Mod :=
  ⟨⟨by decide, by decide⟩,
    claim_C3_strtRlsPass (run demoInit demoIns 2) (demoIns 2) (by decide) (by decide)⟩

/-- applyInputs leaves the FDA bookkeeping fields untouched. -/
lemma applyInputs_fields (s : LsState) (i : TickInput) :
    (applyInputs s i).lsSwtchFdaState = s.lsSwtchFdaState ∧
    (applyInputs s i).ltchRlsIsOn = s.ltchRlsIsOn ∧
    (applyInputs s i).prdCyclIsOn = s.prdCyclIsOn ∧
    (applyInputs s i).ltchRlsPndng = (s.ltchRlsPndng || i.ftFired) ∧
    (applyInputs s i).lftHndSwtchStts = i.lft ∧
    (applyInputs s i).rghtHndSwtchStts = i.rght ∧
    (applyInputs s i).ftEnabled = s.ftEnabled ∧
    (applyInputs s i).sttChng = s.sttChng := by
  simp [applyInputs]

/-- One FDA pass preserves the foot-switch arming invariant. -/
lemma ftEnblInv_updFdaState (s : LsState) (h : FtEnblInv s) :
    FtEnblInv (updFdaState s) := by
  unfold FtEnblInv at h ⊢
  rcases hs : s.lsSwtchFdaState
  all_goals simp only [updFdaState, hs]
  · simp only [fdaOffNotBHP, clrStatus, clrSttChng, setSttChng]
    split_ifs <;> simp_all [hs]
  · simp only [fdaOffBHPNotFP, clrSttChng, setSttChng]
    split_ifs <;> simp_all [hs]
  · simp only [fdaStrtRlsStrtCycl, turnOnLtchRls, turnOnPrdCycl, setLsSwtchOtptsChng,
      setSttChng, clrSttChng]
    split_ifs <;> simp_all [hs]
  · simp only [fdaEndRls, turnOffLtchRls, setLsSwtchOtptsChng, setSttChng, clrSttChng]
    split_ifs <;> simp_all [hs]
  · simp only [fdaEndCycl, turnOffPrdCycl, setLsSwtchOtptsChng, setSttChng, clrSttChng]
    split_ifs <;> simp_all [hs]
  · simp only [fdaEmrgncyExcpHndl, clrSttChng]
    split_ifs <;> simp_all [hs]

/-- A pass started in stOffNotBHP with the entry flag armed establishes
the foot-switch arming invariant, whatever the foot switch state was
before (the In block disables it through clrStatus). -/
lemma ftEnblInv_establish (s : LsState)
    (h1 : s.lsSwtchFdaState = stOffNotBHP) (h2 : s.sttChng = true) :
    FtEnblInv (updFdaState s) := by
  unfold FtEnblInv
  simp only [updFdaState, h1]
  simp only [fdaOffNotBHP, clrStatus, clrSttChng, setSttChng, h2]
  split_ifs <;> simp_all [h1]

/-- One poll tick preserves the foot-switch arming invariant. -/
lemma ftEnblInv_pollTick (s : LsState) (i : TickInput) (h : FtEnblInv s) :
    FtEnblInv (pollTick s i) := by
  apply ftEnblInv_updFdaState
  unfold FtEnblInv at h ⊢
  simpa [applyInputs] using h

/-- C2: in every state the FDA step relation reaches from the
construction state (one or more poll ticks), the foot switch is enabled
exactly while the FDA state is stOffBHPNotFP and disabled in every
other state. -/
theorem claim_C2_ftSwtch_arming (lftCfgEnbld rghtCfgEnbld : Bool)
    (ltchRlsActvTm prdCyclActvTm : Nat) (ins : Nat → TickInput) (n : Nat)
    (h : 1 ≤ n) :
    (run (initState lftCfgEnbld rghtCfgEnbld ltchRlsActvTm prdCyclActvTm) ins n).ftEnabled
      = decide ((run (initState lftCfgEnbld rghtCfgEnbld ltchRlsActvTm prdCyclActvTm)
          ins n).lsSwtchFdaState = stOffBHPNotFP) := by
  obtain ⟨m, rfl⟩ : ∃ m, n = m + 1 := ⟨n - 1, by omega⟩
  have key : ∀ k, FtEnblInv
      (run (initState lftCfgEnbld rghtCfgEnbld ltchRlsActvTm prdCyclActvTm) ins (k + 1)) := by
    intro k
    induction k with
    | zero =>
        have hrw : run (initState lftCfgEnbld rghtCfgEnbld ltchRlsActvTm prdCyclActvTm)
            ins 1 = updFdaState (applyInputs (initState lftCfgEnbld rghtCfgEnbld
              ltchRlsActvTm prdCyclActvTm) (ins 0)) := rfl
        rw [hrw]
        apply ftEnblInv_establish
        · simp [applyInputs, initState]
        · simp [applyInputs, initState]
    | succ j ih => exact ftEnblInv_pollTick _ _ ih
  exact key m

/-- C2 witness: after the first poll tick of the concrete trace the FDA
is in stOffBHPNotFP and the foot switch is enabled accordingly. -/
theorem claim_C2_ftSwtch_arming_witness :
    1 ≤ 1 ∧
    (run (initState true true 1500 6000) demoIns 1).ftEnabled
      = decide ((run (initState true true 1500 6000) demoIns 1).lsSwtchFdaState
          = stOffBHPNotFP) :=
  ⟨Nat.le_refl 1, claim_C2_ftSwtch_arming true true 1500 6000 demoIns 1 (Nat.le_refl 1)⟩

/-- The hands-then-foot evidence of a prefix persists in any longer
prefix. -/
lemma goodTrace_mono (s0 : LsState) (ins : Nat → TickInput) (n : Nat)
    (h : GoodTrace s0 ins n) : GoodTrace s0 ins (n + 1) := by
  obtain ⟨t, t', h1, h2, h3, h4, h5⟩ := h
  exact ⟨t, t', h1, Nat.lt_succ_of_lt h2, h3, h4, h5⟩

/-- Dispatch of updFdaState in state stOffNotBHP. -/
lemma updFdaState_offNotBHP (s : LsState) (h : s.lsSwtchFdaState = stOffNotBHP) :
    updFdaState s = fdaOffNotBHP s := by
  unfold updFdaState; rw [h]

/-- Dispatch of updFdaState in state stOffBHPNotFP. -/
lemma updFdaState_offBHPNotFP (s : LsState) (h : s.lsSwtchFdaState = stOffBHPNotFP) :
    updFdaState s = fdaOffBHPNotFP s := by
  unfold updFdaState; rw [h]

/-- Dispatch of updFdaState in state stStrtRlsStrtCycl. -/
lemma updFdaState_strtRls (s : LsState) (h : s.lsSwtchFdaState = stStrtRlsStrtCycl) :
    updFdaState s = fdaStrtRlsStrtCycl s := by
  unfold updFdaState; rw [h]

/-- Dispatch of updFdaState in state stEndRls. -/
lemma updFdaState_endRls (s : LsState) (h : s.lsSwtchFdaState = stEndRls) :
    updFdaState s = fdaEndRls s := by
  unfold updFdaState; rw [h]

/-- Dispatch of updFdaState in state stEndCycl. -/
lemma updFdaState_endCycl (s : LsState) (h : s.lsSwtchFdaState = stEndCycl) :
    updFdaState s = fdaEndCycl s := by
  unfold updFdaState; rw [h]

/-- Dispatch of updFdaState in state stEmrgncyExcpHndl. -/
lemma updFdaState_emrgncy (s : LsState) (h : s.lsSwtchFdaState = stEmrgncyExcpHndl) :
    updFdaState s = fdaEmrgncyExcpHndl s := by
  unfold updFdaState; rw [h]

/-- The stOffNotBHP pass never raises an output, and it moves to
stOffBHPNotFP exactly on a snapshot with both hands on, otherwise
staying in stOffNotBHP. -/
lemma fdaOffNotBHP_facts (s : LsState) (h : s.lsSwtchFdaState = stOffNotBHP) :
    (outputsOn (fdaOffNotBHP s) = true → outputsOn s = true) ∧
    ((fdaOffNotBHP s).lsSwtchFdaState = stOffBHPNotFP →
      (s.lftHndSwtchStts.isOn && s.rghtHndSwtchStts.isOn) = true) ∧
    ((fdaOffNotBHP s).lsSwtchFdaState = stOffNotBHP ∨
      (fdaOffNotBHP s).lsSwtchFdaState = stOffBHPNotFP) := by
  simp only [fdaOffNotBHP, clrStatus, clrSttChng, setSttChng, outputsOn]
  split_ifs <;> simp_all

/-- The stOffBHPNotFP pass leaves both outputs untouched; it accepts into
stStrtRlsStrtCycl exactly on a snapshot with both hands on and the
pending foot-press flag set, and it stays in stOffBHPNotFP only on a
snapshot with both hands on. -/
lemma fdaOffBHPNotFP_facts (s : LsState) (h : s.lsSwtchFdaState = stOffBHPNotFP) :
    ((fdaOffBHPNotFP s).ltchRlsIsOn = s.ltchRlsIsOn ∧
      (fdaOffBHPNotFP s).prdCyclIsOn = s.prdCyclIsOn) ∧
    ((fdaOffBHPNotFP s).lsSwtchFdaState = stStrtRlsStrtCycl →
      (s.lftHndSwtchStts.isOn && s.rghtHndSwtchStts.isOn) = true ∧
        s.ltchRlsPndng = true) ∧
    ((fdaOffBHPNotFP s).lsSwtchFdaState = stOffBHPNotFP →
      (s.lftHndSwtchStts.isOn && s.rghtHndSwtchStts.isOn) = true) := by
  simp only [fdaOffBHPNotFP, clrSttChng, setSttChng]
  split_ifs <;> simp_all

/-- The stStrtRlsStrtCycl pass unconditionally moves to stEndRls. -/
lemma fdaStrtRlsStrtCycl_state (s : LsState) :
    (fdaStrtRlsStrtCycl s).lsSwtchFdaState = stEndRls := rfl

/-- The stEndRls pass never raises an output and moves only to stEndCycl
or stays. -/
lemma fdaEndRls_facts (s : LsState) (h : s.lsSwtchFdaState = stEndRls) :
    (outputsOn (fdaEndRls s) = true → outputsOn s = true) ∧
    ((fdaEndRls s).lsSwtchFdaState = stEndRls ∨
      (fdaEndRls s).lsSwtchFdaState = stEndCycl) := by
  simp only [fdaEndRls, turnOffLtchRls, setLsSwtchOtptsChng, setSttChng, clrSttChng,
    outputsOn]
  split_ifs <;> simp_all

/-- The stEndCycl pass never raises an output and moves only to
stOffNotBHP or stays. -/
lemma fdaEndCycl_facts (s : LsState) (h : s.lsSwtchFdaState = stEndCycl) :
    (outputsOn (fdaEndCycl s) = true → outputsOn s = true) ∧
    ((fdaEndCycl s).lsSwtchFdaState = stEndCycl ∨
      (fdaEndCycl s).lsSwtchFdaState = stOffNotBHP) := by
  simp only [fdaEndCycl, turnOffPrdCycl, setLsSwtchOtptsChng, setSttChng, clrSttChng,
    outputsOn]
  split_ifs <;> simp_all

/-- The stEmrgncyExcpHndl pass changes neither outputs nor state. -/
lemma fdaEmrgncyExcpHndl_facts (s : LsState) :
    outputsOn (fdaEmrgncyExcpHndl s) = outputsOn s ∧
    (fdaEmrgncyExcpHndl s).lsSwtchFdaState = s.lsSwtchFdaState := by
  simp only [fdaEmrgncyExcpHndl, clrSttChng, outputsOn]
  split_ifs <;> simp_all

/-- The ordering invariant holds at the construction state. -/
lemma C1Inv_zero (lftCfgEnbld rghtCfgEnbld : Bool) (ltchRlsActvTm prdCyclActvTm : Nat)
    (ins : Nat → TickInput) :
    C1Inv (initState lftCfgEnbld rghtCfgEnbld ltchRlsActvTm prdCyclActvTm) ins 0 := by
  refine ⟨?_, ?_, ?_⟩ <;> intro hx <;> simp [run, initState, outputsOn] at hx

/-- One poll tick preserves the ordering invariant. -/
lemma C1Inv_step (s0 : LsState) (ins : Nat → TickInput) (n : Nat)
    (h : C1Inv s0 ins n) : C1Inv s0 ins (n + 1) := by
  obtain ⟨ha, hb, hc⟩ := h
  have hrun : run s0 ins (n + 1) =
      updFdaState (applyInputs (run s0 ins n) (ins n)) := rfl
  obtain ⟨af1, af2, af3, af4, af5, af6, af7, af8⟩ :=
    applyInputs_fields (run s0 ins n) (ins n)
  have hbothIff :
      bothHands (ins n) = ((applyInputs (run s0 ins n) (ins n)).lftHndSwtchStts.isOn
        && (applyInputs (run s0 ins n) (ins n)).rghtHndSwtchStts.isOn) := by
    unfold bothHands
    rw [af5, af6]
  have houtIff : outputsOn (applyInputs (run s0 ins n) (ins n)) =
      outputsOn (run s0 ins n) := by
    unfold outputsOn
    rw [af2, af3]
  rcases hfs : (run s0 ins n).lsSwtchFdaState
  case stOffNotBHP =>
    have e : run s0 ins (n + 1) = fdaOffNotBHP (applyInputs (run s0 ins n) (ins n)) :=
      hrun.trans (updFdaState_offNotBHP _ (af1.trans hfs))
    obtain ⟨f1, f2, f3⟩ := fdaOffNotBHP_facts _ (af1.trans hfs)
    refine ⟨?_, ?_, ?_⟩
    · intro hx
      rw [e] at hx
      exact ⟨n, Nat.lt_succ_self n, hbothIff.trans (f2 hx)⟩
    · intro hx
      rw [e] at hx
      rcases f3 with h3 | h3 <;> rw [hx] at h3 <;> exact absurd h3 (by simp)
    · intro hx
      rw [e] at hx
      exact goodTrace_mono _ _ _ (hc (houtIff.symm.trans (f1 hx)))
  case stOffBHPNotFP =>
    have e : run s0 ins (n + 1) = fdaOffBHPNotFP (applyInputs (run s0 ins n) (ins n)) :=
      hrun.trans (updFdaState_offBHPNotFP _ (af1.trans hfs))
    obtain ⟨⟨g1, g2⟩, gac, gst⟩ := fdaOffBHPNotFP_facts _ (af1.trans hfs)
    refine ⟨?_, ?_, ?_⟩
    · intro hx
      rw [e] at hx
      exact ⟨n, Nat.lt_succ_self n, hbothIff.trans (gst hx)⟩
    · intro hx
      rw [e] at hx
      obtain ⟨hands, hpnd⟩ := gac hx
      obtain ⟨t', ht'n, ht'b⟩ := ha hfs
      have hobs : pndngObs s0 ins n = true := by
        unfold pndngObs
        rw [← af4]
        exact hpnd
      exact ⟨n, t', ht'n, Nat.lt_succ_self n, ht'b, hbothIff.trans hands, hobs⟩
    · intro hx
      rw [e] at hx
      have hout : outputsOn (applyInputs (run s0 ins n) (ins n)) = true := by
        unfold outputsOn at hx ⊢
        rw [← g1, ← g2]
        exact hx
      exact goodTrace_mono _ _ _ (hc (houtIff.symm.trans hout))
  case stStrtRlsStrtCycl =>
    have e : run s0 ins (n + 1) =
        fdaStrtRlsStrtCycl (applyInputs (run s0 ins n) (ins n)) :=
      hrun.trans (updFdaState_strtRls _ (af1.trans hfs))
    have hst := fdaStrtRlsStrtCycl_state (applyInputs (run s0 ins n) (ins n))
    refine ⟨?_, ?_, ?_⟩
    · intro hx
      rw [e, hst] at hx
      exact absurd hx (by simp)
    · intro hx
      rw [e, hst] at hx
      exact absurd hx (by simp)
    · intro _
      exact goodTrace_mono _ _ _ (hb hfs)
  case stEndRls =>
    have e : run s0 ins (n + 1) = fdaEndRls (applyInputs (run s0 ins n) (ins n)) :=
      hrun.trans (updFdaState_endRls _ (af1.trans hfs))
    obtain ⟨f1, f3⟩ := fdaEndRls_facts _ (af1.trans hfs)
    refine ⟨?_, ?_, ?_⟩
    · intro hx
      rw [e] at hx
      rcases f3 with h3 | h3 <;> rw [hx] at h3 <;> exact absurd h3 (by simp)
    · intro hx
      rw [e] at hx
      rcases f3 with h3 | h3 <;> rw [hx] at h3 <;> exact absurd h3 (by simp)
    · intro hx
      rw [e] at hx
      exact goodTrace_mono _ _ _ (hc (houtIff.symm.trans (f1 hx)))
  case stEndCycl =>
    have e : run s0 ins (n + 1) = fdaEndCycl (applyInputs (run s0 ins n) (ins n)) :=
      hrun.trans (updFdaState_endCycl _ (af1.trans hfs))
    obtain ⟨f1, f3⟩ := fdaEndCycl_facts _ (af1.trans hfs)
    refine ⟨?_, ?_, ?_⟩
    · intro hx
      rw [e] at hx
      rcases f3 with h3 | h3 <;> rw [hx] at h3 <;> exact absurd h3 (by simp)
    · intro hx
      rw [e] at hx
      rcases f3 with h3 | h3 <;> rw [hx] at h3 <;> exact absurd h3 (by simp)
    · intro hx
      rw [e] at hx
      exact goodTrace_mono _ _ _ (hc (houtIff.symm.trans (f1 hx)))
  case stEmrgncyExcpHndl =>
    have e : run s0 ins (n + 1) =
        fdaEmrgncyExcpHndl (applyInputs (run s0 ins n) (ins n)) :=
      hrun.trans (updFdaState_emrgncy _ (af1.trans hfs))
    obtain ⟨f1, f2⟩ := fdaEmrgncyExcpHndl_facts (applyInputs (run s0 ins n) (ins n))
    refine ⟨?_, ?_, ?_⟩
    · intro hx
      rw [e, f2, af1, hfs] at hx
      exact absurd hx (by simp)
    · intro hx
      rw [e, f2, af1, hfs] at hx
      exact absurd hx (by simp)
    · intro hx
      rw [e] at hx
      exact goodTrace_mono _ _ _ (hc (houtIff.symm.trans (f1.symm.trans hx)))

/-- C1: on every run from the construction state, an output can only be
on at tick n if some earlier tick t' had both hands on in its snapshot
and a strictly later tick t, still before n, had both hands on in its
snapshot while the FDA pass read the pending foot-press flag (set only
by the foot switch turn-on callback _setLtchRlsPndng) as true. -/
theorem claim_C1_ordering (lftCfgEnbld rghtCfgEnbld : Bool)
    (ltchRlsActvTm prdCyclActvTm : Nat) (ins : Nat → TickInput) (n : Nat)
    (h : outputsOn (run (initState lftCfgEnbld rghtCfgEnbld ltchRlsActvTm
      prdCyclActvTm) ins n) = true) :
    GoodTrace (initState lftCfgEnbld rghtCfgEnbld ltchRlsActvTm prdCyclActvTm)
      ins n := by
  have inv : ∀ m, C1Inv (initState lftCfgEnbld rghtCfgEnbld ltchRlsActvTm
      prdCyclActvTm) ins m := by
    intro m
    induction m with
    | zero => exact C1Inv_zero lftCfgEnbld rghtCfgEnbld ltchRlsActvTm prdCyclActvTm ins
    | succ k ih => exact C1Inv_step _ ins k ih
  exact (inv n).2.2 h

/-- C1 witness: on the concrete trace the outputs are on after tick 3,
and the required hands-then-foot evidence exists in the first three
ticks. -/
theorem claim_C1_ordering_witness :
    outputsOn (run (initState true true 1500 6000) demoIns 3) = true ∧
    GoodTrace (initState true true 1500 6000) demoIns 3 :=
  ⟨by decide, claim_C1_ordering true true 1500 6000 demoIns 3 (by decide)⟩

end LimbsSafety
